import Mathlib

/-!
Verification of the SAGAN model construction code (`SAGAN/sagan_model.py`).

The source program is TensorFlow-1 graph-construction code: every method only
builds a symbolic computation graph and registers named variables in a global
variable store.  We embed this faithfully:

* tensors are expression trees (`Expr`), one constructor per graph operation
  appearing in the source;
* the variable store is the list of registered variable names, in creation
  order, and `tf.variable_scope(..., reuse=...)` turns into an explicit
  `reuse` flag threaded through the builders;
* failures (Python `SyntaxError`, `AssertionError`, TensorFlow `ValueError`
  on bad variable reuse) are `Except` errors;
* shape semantics of the layers is a separate function `inferShape` on
  expression trees.

The helper library `tfutil` (`t.conv2d`, `t.deconv2d`, `t.dense`,
`t.batch_norm`, `t.sce_loss`) is imported by the source but its file is not
part of the sources given; those five layer builders are modelled from the
spec, as marked in their doc comments.  Python strings are modelled as
`List Char`.
-/

namespace SAGANModel

/-- Python strings, modelled as lists of characters. -/
abbrev PyStr := List Char

/-- Coerce a Lean string literal to a modelled Python string. -/
def pstr (s : String) : PyStr := s.toList

/-- Decimal rendering of a natural number, as used by Python `'%d' % n`. -/
def natStr (n : Nat) : PyStr := Nat.toDigits 10 n

/-- Python `str.startswith`, used at source line 181/182 to split the
trainable variables by name. -/
def pyStartsWith (s p : PyStr) : Bool := p.isPrefixOf s

/-- Python substring test `sub in s`. -/
def pyContains (sub : PyStr) : PyStr → Bool
  | [] => sub.isEmpty
  | c :: t => sub.isPrefixOf (c :: t) || pyContains sub t

/-- The error outcomes of evaluating and constructing the model:
Python `SyntaxError` (rejected module), Python `AssertionError`
(failed `assert`), TensorFlow `ValueError` (variable-reuse violation). -/
inductive PyErr where
  | syntaxErr
  | assertionErr
  | valueErr
deriving DecidableEq, Repr, Inhabited

/-- Graph expressions: one constructor per tensor operation used by
`sagan_model.py`.  Numeric attributes (filters `f`, kernel `k`, stride `s`,
dense `units`, leaky-relu slope, dropout rate) are carried verbatim. -/
inductive Expr where
  | placeholder (name : PyStr) (shape : List Nat)
  | dense (x : Expr) (units : Nat) (name : PyStr)
  | conv2d (x : Expr) (f k s : Nat) (name : PyStr)
  | deconv2d (x : Expr) (f k s : Nat) (name : PyStr)
  | reshape4 (x : Expr) (h w c : Nat)
  | relu (x : Expr)
  | leakyRelu (x : Expr) (alpha : Rat)
  | dropout (x : Expr) (rate : Rat) (name : PyStr)
  | batchNorm (x : Expr) (name : PyStr)
  | flatten (x : Expr)
  | tanh (x : Expr)
  | onesLike (x : Expr)
  | zerosLike (x : Expr)
  | sceLoss (logits labels : Expr)
  | add (a b : Expr)
deriving DecidableEq, Repr, Inhabited

/-- Whether an expression tree contains a named node (layer, placeholder)
with exactly the given name.  Used to decide which loss depends on which
network head. -/
def mentions (nm : PyStr) : Expr → Bool
  | .placeholder n _ => n == nm
  | .dense x _ n => n == nm || mentions nm x
  | .conv2d x _ _ _ n => n == nm || mentions nm x
  | .deconv2d x _ _ _ n => n == nm || mentions nm x
  | .reshape4 x _ _ _ => mentions nm x
  | .relu x => mentions nm x
  | .leakyRelu x _ => mentions nm x
  | .dropout x _ n => n == nm || mentions nm x
  | .batchNorm x n => n == nm || mentions nm x
  | .flatten x => mentions nm x
  | .tanh x => mentions nm x
  | .onesLike x => mentions nm x
  | .zerosLike x => mentions nm x
  | .sceLoss a b => mentions nm a || mentions nm b
  | .add a b => mentions nm a || mentions nm b

/-- Ceiling division, the spatial-size rule of SAME-padded strided
convolution: output size = ceil(input size / stride). -/
def ceilDiv (n s : Nat) : Nat := (n + s - 1) / s

/-- Shape semantics of the graph operations (static shape inference, with
the dynamic batch dimension instantiated to the configured batch size).
`none` means the framework rejects/cannot type the operation.
Layer shape rules for the `tfutil` layers are modelled from the spec:
convolutions halve/preserve spatial resolution via their stride (SAME
padding), the transposed convolution multiplies it by the stride, a dense
layer replaces the last dimension by its unit count, and the sigmoid
cross-entropy loss is a scalar mean. -/
def inferShape : Expr → Option (List Nat)
  | .placeholder _ shape => some shape
  | .dense x units _ =>
      match inferShape x with
      | some s => some (s.dropLast ++ [units])
      | none => none
  | .conv2d x f _ s _ =>
      match inferShape x with
      | some [b, h, w, _] => some [b, ceilDiv h s, ceilDiv w s, f]
      | _ => none
  | .deconv2d x f _ s _ =>
      match inferShape x with
      | some [b, h, w, _] => some [b, h * s, w * s, f]
      | _ => none
  | .reshape4 x h w c =>
      match inferShape x with
      | some s =>
          let n := s.foldl (· * ·) 1
          if h * w * c ≠ 0 ∧ n % (h * w * c) = 0 then
            some [n / (h * w * c), h, w, c]
          else none
      | none => none
  | .relu x => inferShape x
  | .leakyRelu x _ => inferShape x
  | .dropout x _ _ => inferShape x
  | .batchNorm x _ => inferShape x
  | .flatten x =>
      match inferShape x with
      | some (b :: rest) => some [b, rest.foldl (· * ·) 1]
      | _ => none
  | .tanh x => inferShape x
  | .onesLike x => inferShape x
  | .zerosLike x => inferShape x
  | .sceLoss _ _ => some []
  | .add a b =>
      match inferShape a, inferShape b with
      | some sa, some sb => if sa = sb then some sa else none
      | _, _ => none

/-- The TensorFlow variable store: the names of the registered (trainable)
variables, in creation order.  Shape bookkeeping of the framework store is
not modelled; variables are identified by their full scoped name, which is
exactly how the source selects and shares them. -/
abbrev Store := List PyStr

/-- TensorFlow `get_variable` under a scope with reuse flag: with
`reuse = false` the name must be fresh and is registered; with
`reuse = true` the name must already exist and the existing variable is
returned.  Violations raise `ValueError`. -/
def getVar (st : Store) (reuse : Bool) (nm : PyStr) : Except PyErr Store :=
  if nm ∈ st then
    if reuse then .ok st else .error .valueErr
  else
    if reuse then .error .valueErr else .ok (st ++ [nm])

/-- Builder state for one network invocation: the global variable store and
the names this invocation touched (created or reused), in order. -/
structure BSt where
  store : Store
  used : List PyStr
deriving DecidableEq, Repr

/-- Register/look up one variable and record it as used. -/
def useVar (b : BSt) (reuse : Bool) (nm : PyStr) : Except PyErr BSt := do
  let st ← getVar b.store reuse nm
  pure ⟨st, b.used ++ [nm]⟩

/-- Modelled from the spec: `t.conv2d` from `tfutil` (file not among the
sources) — a SAME-padded strided convolution layer holding a weight and a
bias parameter under its name inside the current variable scope. -/
def conv2dL (scope : PyStr) (reuse : Bool) (b : BSt) (x : Expr)
    (f k s : Nat) (nm : PyStr) : Except PyErr (BSt × Expr) := do
  let b ← useVar b reuse (scope ++ nm ++ pstr "/w")
  let b ← useVar b reuse (scope ++ nm ++ pstr "/b")
  pure (b, Expr.conv2d x f k s nm)

/-- Modelled from the spec: `t.deconv2d` from `tfutil` (file not among the
sources) — a transposed convolution layer holding a weight and a bias
parameter under its name inside the current variable scope. -/
def deconv2dL (scope : PyStr) (reuse : Bool) (b : BSt) (x : Expr)
    (f k s : Nat) (nm : PyStr) : Except PyErr (BSt × Expr) := do
  let b ← useVar b reuse (scope ++ nm ++ pstr "/w")
  let b ← useVar b reuse (scope ++ nm ++ pstr "/b")
  pure (b, Expr.deconv2d x f k s nm)

/-- Modelled from the spec: `t.dense` from `tfutil` (file not among the
sources) — a fully connected layer holding a weight and a bias parameter
under its name inside the current variable scope. -/
def denseL (scope : PyStr) (reuse : Bool) (b : BSt) (x : Expr)
    (units : Nat) (nm : PyStr) : Except PyErr (BSt × Expr) := do
  let b ← useVar b reuse (scope ++ nm ++ pstr "/w")
  let b ← useVar b reuse (scope ++ nm ++ pstr "/b")
  pure (b, Expr.dense x units nm)

/-- Modelled from the spec: `t.batch_norm` from `tfutil` (file not among
the sources) — a batch-normalization step holding trainable shift and scale
parameters under its name inside the current variable scope. -/
def batchNormL (scope : PyStr) (reuse : Bool) (b : BSt) (x : Expr)
    (nm : PyStr) : Except PyErr (BSt × Expr) := do
  let b ← useVar b reuse (scope ++ nm ++ pstr "/beta")
  let b ← useVar b reuse (scope ++ nm ++ pstr "/gamma")
  pure (b, Expr.batchNorm x nm)

/-- The scalar hyperparameters accepted by `SAGAN.__init__`
(source lines 16–18), one field per distinct parameter name.  The source
declares `gf_dim` twice, with defaults 64 and then 384; the field here keeps
the later default (the duplication itself is handled by `initParamNames`
and `moduleEval`). -/
structure Config where
  batch_size : Nat
  height : Nat
  width : Nat
  channel : Nat
  n_classes : Nat
  sample_num : Nat
  sample_size : Nat
  df_dim : Nat
  gf_dim : Nat
  fc_unit : Nat
  z_dim : Nat
  lr : Rat
deriving DecidableEq, Repr

/-- The default configuration of the constructor signature, which is also
the scenario fixed by the spec: batch 100, 32×32×3 images, 10 classes,
z_dim 128, lr 1e-4. -/
def defaultCfg : Config :=
  ⟨100, 32, 32, 3, 10, 10 * 10, 10, 64, 384, 512, 128, 1 / 10000⟩

/-- Fuel-based floor base-2 logarithm; with fuel at least `n` it agrees with
`Nat.log2 n` (see `log2Fuel_eq_log2`).  Written with structural recursion so
that it evaluates inside the kernel. -/
def log2Fuel : Nat → Nat → Nat
  | 0, _ => 0
  | fuel + 1, n => if n ≥ 2 then log2Fuel fuel (n / 2) + 1 else 0

/-- Floor base-2 logarithm, the integer value of `np.log2` on powers of
two. -/
def pyLog2 (n : Nat) : Nat := log2Fuel n n

/-- Source line 52: `self.n_layer = np.log2(self.height) - 2  # 5`.
`np.log2` is exact on powers of two, where the result is the integer
`log₂ height - 2` (as an integer; the value is negative for height 2). -/
def n_layer (height : Nat) : Int := (pyLog2 height : Int) - 2

/-- Source line 142: `x = x  # self.attention(x, self.gf_dim * 1, ...)`.
The self-attention stage of the generator, as written: the attention call
is commented out and the statement is an identity assignment. -/
def attentionStage (x : Expr) : Expr := x

/-- One iteration of the two generator stage loops (source lines 130–139
and 144–153): `f = gf_dim * 8 // 2 ** (i + 1)`; since `up_sampling` is
`True`, the branch taken is `x = x` (the up-sampling is stubbed out)
followed by a stride-1 conv2d named `gen-conv2d-(i+1)`, then batch norm
`gen-bn-i` and relu.  The dead `else` branch (deconv2d) is kept as written. -/
def genStage (cfg : Config) (scope : PyStr) (reuse : Bool)
    (up_sampling : Bool) (acc : BSt × Expr) (i : Nat) :
    Except PyErr (BSt × Expr) := do
  let f := cfg.gf_dim * 8 / 2 ^ (i + 1)
  let (b, x) := acc
  let (b, x) ←
    if up_sampling then
      conv2dL scope reuse b x f 5 1 (pstr "gen-conv2d-" ++ natStr (i + 1))
    else
      deconv2dL scope reuse b x f 4 2 (pstr "gen-deconv2d-" ++ natStr (i + 1))
  let (b, x) ← batchNormL scope reuse b x (pstr "gen-bn-" ++ natStr i)
  pure (b, Expr.relu x)

/-- `SAGAN.generator` (source lines 115–157): dense projection of the noise
to `4*4*gf_dim*8` units, reshape to a 4×4 feature map, the first stage loop
over `range(n_layer // 2)`, the (stubbed) self-attention stage, the second
stage loop over `range(n_layer // 2, n_layer)`, a final stride-1 conv2d
`gen-conv2d-5` down to `channel` maps and a tanh.  Loop bounds: the source
computes `n_layer` with `np.log2` (a float); the integer count is modelled
from the spec, "count derived from log2(height) − 2". -/
def generator (cfg : Config) (st : Store) (z : Expr) (reuse : Bool) :
    Except PyErr (BSt × Expr) := do
  let scope := pstr "generator/"
  let b : BSt := ⟨st, []⟩
  let (b, x) ← denseL scope reuse b z (4 * 4 * cfg.gf_dim * 8) (pstr "gen-fc-1")
  let x := Expr.relu x
  let x := Expr.reshape4 x 4 4 (cfg.gf_dim * 8)
  let nl := (n_layer cfg.height).toNat
  let up_sampling := true
  let (b, x) ← (List.range (nl / 2)).foldlM (genStage cfg scope reuse up_sampling) (b, x)
  let x := attentionStage x
  let (b, x) ← (List.range' (nl / 2) (nl - nl / 2)).foldlM
      (genStage cfg scope reuse up_sampling) (b, x)
  let (b, x) ← conv2dL scope reuse b x cfg.channel 5 1 (pstr "gen-conv2d-5")
  pure (b, Expr.tanh x)

/-- One iteration of the discriminator stage loop (source lines 102–106):
conv2d with `df_dim * 2^(i+1)` filters, kernel 3, stride `i % 2 + 1`, named
`disc-conv2d-(i+2)`, then batch norm `disc-bn-(i+1)`, leaky relu (slope
0.2) and dropout 0.5. -/
def discStage (cfg : Config) (scope : PyStr) (reuse : Bool)
    (acc : BSt × Expr) (i : Nat) : Except PyErr (BSt × Expr) := do
  let (b, x) := acc
  let (b, x) ← conv2dL scope reuse b x (cfg.df_dim * 2 ^ (i + 1)) 3 (i % 2 + 1)
      (pstr "disc-conv2d-" ++ natStr (i + 2))
  let (b, x) ← batchNormL scope reuse b x (pstr "disc-bn-" ++ natStr (i + 1))
  let x := Expr.leakyRelu x (1 / 5)
  pure (b, Expr.dropout x (1 / 2) (pstr "disc-dropout2d-" ++ natStr (i + 1)))

/-- `SAGAN.discriminator` (source lines 90–113): an initial conv2d
(`df_dim` filters, kernel 3, stride 2) with leaky relu and dropout, five
stages over `range(5)`, flatten, and two dense heads: the `n_classes`-way
class head `disc-fc-cat` and the scalar real/fake head `disc-fc-disc`.
Returns `(cat, disc, net)` together with the builder state. -/
def discriminator (cfg : Config) (st : Store) (x : Expr) (reuse : Bool) :
    Except PyErr (BSt × Expr × Expr × Expr) := do
  let scope := pstr "discriminator/"
  let b : BSt := ⟨st, []⟩
  let (b, x) ← conv2dL scope reuse b x cfg.df_dim 3 2 (pstr "disc-conv2d-1")
  let x := Expr.leakyRelu x (1 / 5)
  let x := Expr.dropout x (1 / 2) (pstr "disc-dropout2d-1")
  let (b, x) ← (List.range 5).foldlM (discStage cfg scope reuse) (b, x)
  let net := Expr.flatten x
  let (b, cat) ← denseL scope reuse b net cfg.n_classes (pstr "disc-fc-cat")
  let (b, disc) ← denseL scope reuse b net 1 (pstr "disc-fc-disc")
  pure (b, cat, disc, net)

/-- The placeholder `self.x` (source lines 83–85), with the dynamic batch
dimension instantiated to the configured batch size. -/
def xPlaceholder (cfg : Config) : Expr :=
  .placeholder (pstr "x-image") [cfg.batch_size, cfg.height, cfg.width, cfg.channel]

/-- The placeholder `self.z` (source line 86), with the dynamic batch
dimension instantiated to the configured batch size. -/
def zPlaceholder (cfg : Config) : Expr :=
  .placeholder (pstr "z-noise") [cfg.batch_size, cfg.z_dim]

/-- One Adam optimizer update operation (source lines 184–187): its
learning rate, betas, the loss it minimizes and its `var_list`. -/
structure OptimOp where
  lr : Rat
  beta1 : Rat
  beta2 : Rat
  loss : Expr
  var_list : List PyStr
deriving DecidableEq, Repr

/-- Everything `build_sagan` (source lines 159–194) computes, plus the
intermediate variable stores and per-invocation used-variable lists, kept
for inspection.  `c_loss` is the field `self.c_loss` set to `0.` in
`__init__` (line 70) and never reassigned. -/
structure BuildResult where
  g : Expr
  c_real : Expr
  d_real : Expr
  net_real : Expr
  c_fake : Expr
  d_fake : Expr
  net_fake : Expr
  d_real_loss : Expr
  d_fake_loss : Expr
  d_loss : Expr
  g_loss : Expr
  c_loss : Rat
  t_vars : Store
  d_params : List PyStr
  g_params : List PyStr
  d_op : OptimOp
  g_op : OptimOp
  store_gen : Store
  store_disc1 : Store
  store_disc2 : Store
  used_gen : List PyStr
  used_disc1 : List PyStr
  used_disc2 : List PyStr
deriving DecidableEq, Repr

/-- `SAGAN.build_sagan` (source lines 159–194): generator on the noise
placeholder; discriminator on the image placeholder; discriminator again on
the generator output with `reuse=True`; the two sigmoid cross-entropy
discriminator losses and their sum; the generator loss; the split of the
trainable variables by name into `d_params`/`g_params`; and the two Adam
update operations with learning rates `lr * 4` and `lr * 1`
(beta1 = 0, beta2 = 0.9). -/
def build_sagan (cfg : Config) : Except PyErr BuildResult := do
  let (bg, g) ← generator cfg [] (zPlaceholder cfg) false
  let (b1, c_real, d_real, net_real) ← discriminator cfg bg.store (xPlaceholder cfg) false
  let (b2, c_fake, d_fake, net_fake) ← discriminator cfg b1.store g true
  let d_real_loss := Expr.sceLoss d_real (Expr.onesLike d_real)
  let d_fake_loss := Expr.sceLoss d_fake (Expr.zerosLike d_fake)
  let d_loss := Expr.add d_real_loss d_fake_loss
  let g_loss := Expr.sceLoss d_fake (Expr.onesLike d_fake)
  let t_vars := b2.store
  let d_params := t_vars.filter (fun v => pyStartsWith v (pstr "d"))
  let g_params := t_vars.filter (fun v => pyStartsWith v (pstr "g"))
  let beta1 : Rat := 0
  let beta2 : Rat := 9 / 10
  let d_op : OptimOp := ⟨cfg.lr * 4, beta1, beta2, d_loss, d_params⟩
  let g_op : OptimOp := ⟨cfg.lr * 1, beta1, beta2, g_loss, g_params⟩
  pure ⟨g, c_real, d_real, net_real, c_fake, d_fake, net_fake,
        d_real_loss, d_fake_loss, d_loss, g_loss, 0,
        t_vars, d_params, g_params, d_op, g_op,
        bg.store, b1.store, b2.store, bg.used, b1.used, b2.used⟩

/-- `SAGAN.__init__` (source lines 16–88) after the module has been
accepted: it stores the hyperparameters, computes `n_layer`, asserts
`self.height == self.width` (line 53, the only explicit validation in the
file), creates the two placeholders and calls `build_sagan`. -/
def sagan_init (cfg : Config) : Except PyErr BuildResult :=
  if cfg.height = cfg.width then build_sagan cfg else .error .assertionErr

/-- The parameter names of `def __init__` exactly as written in source
lines 16–18; `gf_dim` appears twice. -/
def initParamNames : List PyStr :=
  [pstr "self", pstr "s", pstr "batch_size", pstr "height", pstr "width",
   pstr "channel", pstr "n_classes", pstr "sample_num", pstr "sample_size",
   pstr "df_dim", pstr "gf_dim", pstr "gf_dim", pstr "fc_unit",
   pstr "z_dim", pstr "lr"]

/-- Evaluating the module `sagan_model.py`: Python rejects a `def` whose
parameter list repeats a name with `SyntaxError: duplicate argument`, so
the module is accepted exactly when the `__init__` parameter names are
pairwise distinct. -/
def moduleEval : Except PyErr Unit :=
  if initParamNames.Nodup then .ok () else .error .syntaxErr

/-- Constructing the model end to end: evaluate the module, then call the
constructor. -/
def constructSAGAN (cfg : Config) : Except PyErr BuildResult := do
  let _ ← moduleEval
  sagan_init cfg

/-- The result of `build_sagan` at the default configuration (this build
succeeds; see `build_sagan_defaultCfg_ok`). -/
def buildRes : BuildResult :=
  match build_sagan defaultCfg with
  | .ok r => r
  | .error _ => ⟨default, default, default, default, default, default,
      default, default, default, default, default, 0, [], [], [],
      ⟨0, 0, 0, default, []⟩, ⟨0, 0, 0, default, []⟩, [], [], [], [], [], []⟩

theorem log2_unfold (n : Nat) :
    Nat.log2 n = if n ≥ 2 then Nat.log2 (n / 2) + 1 else 0 := by
  conv_lhs => unfold Nat.log2

theorem log2Fuel_eq_log2 (fuel : Nat) :
    ∀ n, n ≤ fuel → log2Fuel fuel n = Nat.log2 n := by
  induction fuel with
  | zero =>
    intro n hn
    have hn0 : n = 0 := Nat.le_zero.mp hn
    subst hn0
    rw [log2_unfold]
    simp [log2Fuel]
  | succ f ih =>
    intro n hn
    rw [log2_unfold n]
    show (if n ≥ 2 then log2Fuel f (n / 2) + 1 else 0)
        = if n ≥ 2 then Nat.log2 (n / 2) + 1 else 0
    by_cases h2 : n ≥ 2
    · have hlt : n / 2 < n := Nat.div_lt_self (by omega) (by omega)
      rw [if_pos h2, if_pos h2, ih (n / 2) (by omega)]
    · rw [if_neg h2, if_neg h2]

theorem pyLog2_eq_log2 (n : Nat) : pyLog2 n = Nat.log2 n :=
  log2Fuel_eq_log2 n n le_rfl

theorem build_sagan_defaultCfg_ok : build_sagan defaultCfg = .ok buildRes := rfl

/-- C1: the claim states that for the configuration batch_size=100,
height=width=32, channel=3, n_classes=10, z_dim=128, evaluating the module
and calling the constructor raises no error.  The code violates it:
`def __init__` declares the parameter `gf_dim` twice (source line 18), so
Python rejects the module with `SyntaxError: duplicate argument` and
construction never happens.  This theorem evaluates the model at that
failing input: module evaluation yields the syntax error, and the duplicate
is exactly the name `gf_dim`, which occurs twice in the declared parameter
list. -/
theorem claim_C1_construction_raises :
    constructSAGAN defaultCfg = .error .syntaxErr ∧
    initParamNames.count (pstr "gf_dim") = 2 ∧
    ¬ initParamNames.Nodup :=
  ⟨rfl, by decide, by decide⟩

/-- C2: the claim states that the generator output shape equals
(batch, height, width, channel) for every valid configuration.  The code
violates it: the up-sampling step of every generator stage is stubbed out
(`x = x  # up-sampling`, source lines 133 and 147) and all remaining
convolutions have stride 1, so the spatial size stays at the initial 4×4.
At the default configuration (batch 100, height=width=32, channel 3) the
generator output has shape (100, 4, 4, 3), not (100, 32, 32, 3). -/
theorem claim_C2_generator_shape :
    build_sagan defaultCfg = .ok buildRes ∧
    inferShape buildRes.g = some [100, 4, 4, 3] ∧
    inferShape buildRes.g ≠
      some [defaultCfg.batch_size, defaultCfg.height, defaultCfg.width,
            defaultCfg.channel] :=
  ⟨build_sagan_defaultCfg_ok, rfl, by decide⟩

/-- C3 counterexample: the claim asserts that `n_layer = log2(height) − 2`
and that for height 32 this equals 5.  It is false at height = 32:
log2(32) − 2 = 3 ≠ 5 (the source comment `# 5` on line 52 is wrong). -/
theorem claim_C3_counterexample : n_layer 32 = 3 ∧ ¬ n_layer 32 = 5 := by
  decide

/-- C3 amended: the derived layer count `n_layer` equals log2(height) − 2,
and for height = width = 32 it equals 3 (not 5). -/
theorem claim_C3_n_layer :
    (∀ h : Nat, n_layer h = (Nat.log2 h : Int) - 2) ∧ n_layer 32 = 3 := by
  constructor
  · intro h
    unfold n_layer
    rw [pyLog2_eq_log2]
  · decide

/-- C4: after construction the discriminator total loss is exactly the
unweighted sum of sigmoid cross-entropy(real logit, target = 1) and sigmoid
cross-entropy(fake logit, target = 0); the generator loss is sigmoid
cross-entropy(fake logit, target = 1); and the fake logit appearing in both
losses is the same tensor, the real/fake output of the discriminator
invoked (with reuse) on the generator's image. -/
theorem claim_C4_loss_structure :
    build_sagan defaultCfg = .ok buildRes ∧
    buildRes.d_loss =
      Expr.add (Expr.sceLoss buildRes.d_real (Expr.onesLike buildRes.d_real))
        (Expr.sceLoss buildRes.d_fake (Expr.zerosLike buildRes.d_fake)) ∧
    buildRes.g_loss = Expr.sceLoss buildRes.d_fake (Expr.onesLike buildRes.d_fake) ∧
    discriminator defaultCfg buildRes.store_disc1 buildRes.g true =
      .ok (⟨buildRes.store_disc2, buildRes.used_disc2⟩,
           buildRes.c_fake, buildRes.d_fake, buildRes.net_fake) :=
  ⟨build_sagan_defaultCfg_ok, rfl, rfl, rfl⟩

/-- C5: construction builds exactly two optimizer update operations, one
per parameter set: the discriminator one minimizes the discriminator loss
over the discriminator parameters with learning rate 4 × the base rate, the
generator one minimizes the generator loss over the generator parameters
with learning rate 1 × the base rate, and their variable lists are
disjoint. -/
theorem claim_C5_optimizers :
    build_sagan defaultCfg = .ok buildRes ∧
    buildRes.d_op.lr = 4 * defaultCfg.lr ∧
    buildRes.g_op.lr = 1 * defaultCfg.lr ∧
    buildRes.d_op.var_list = buildRes.d_params ∧
    buildRes.g_op.var_list = buildRes.g_params ∧
    buildRes.d_op.loss = buildRes.d_loss ∧
    buildRes.g_op.loss = buildRes.g_loss ∧
    buildRes.d_op.var_list.all
      (fun v => !buildRes.g_op.var_list.contains v) = true := by
  refine ⟨build_sagan_defaultCfg_ok, ?_, ?_, rfl, rfl, rfl, rfl, by decide⟩
  · have h : buildRes.d_op.lr = defaultCfg.lr * 4 := rfl
    rw [h, mul_comm]
  · have h : buildRes.g_op.lr = defaultCfg.lr * 1 := rfl
    rw [h, mul_comm]

/-- C6: the generator and discriminator parameter sets are selected from
the trainable variables by name, via the Python name tests
`startswith('d')` and `startswith('g')`; the two sets are disjoint, their
union is the whole trainable set, and each optimizer operation updates
only the variables of its own set. -/
theorem claim_C6_param_partition :
    build_sagan defaultCfg = .ok buildRes ∧
    buildRes.d_params =
      buildRes.t_vars.filter (fun v => pyStartsWith v (pstr "d")) ∧
    buildRes.g_params =
      buildRes.t_vars.filter (fun v => pyStartsWith v (pstr "g")) ∧
    buildRes.t_vars.all
      (fun v => buildRes.d_params.contains v || buildRes.g_params.contains v) = true ∧
    buildRes.d_params.all (fun v => !buildRes.g_params.contains v) = true ∧
    buildRes.d_params.all (fun v => buildRes.t_vars.contains v) = true ∧
    buildRes.g_params.all (fun v => buildRes.t_vars.contains v) = true ∧
    buildRes.d_op.var_list = buildRes.d_params ∧
    buildRes.g_op.var_list = buildRes.g_params :=
  ⟨build_sagan_defaultCfg_ok, rfl, rfl, by decide, by decide, by decide,
   by decide, rfl, rfl⟩

/-- C7: the discriminator parameters used in the forward pass on the real
image placeholder are identical (as a list of variable identities, without
repetition) to those used in the forward pass on the generator output; the
second invocation adds nothing to the variable store, and every parameter
the discriminator uses was created by its first invocation (it existed
after the first discriminator call but not after the generator build). -/
theorem claim_C7_weight_sharing :
    build_sagan defaultCfg = .ok buildRes ∧
    buildRes.store_disc2 = buildRes.store_disc1 ∧
    buildRes.used_disc2 = buildRes.used_disc1 ∧
    buildRes.used_disc1.all
      (fun v => buildRes.store_disc1.contains v && !buildRes.store_gen.contains v) = true ∧
    buildRes.used_disc1.Nodup :=
  ⟨build_sagan_defaultCfg_ok, rfl, rfl, by decide, by decide⟩

/-- C8: the only explicit input validation in the model is the assertion
`assert self.height == self.width` (source line 53): whenever height
differs from width, construction aborts with the assertion error; whenever
height equals width, the assertion never fires and construction proceeds
directly to `build_sagan`. -/
theorem claim_C8_square_assertion :
    (∀ cfg : Config, cfg.height ≠ cfg.width →
        sagan_init cfg = .error .assertionErr) ∧
    (∀ cfg : Config, cfg.height = cfg.width →
        sagan_init cfg = build_sagan cfg) := by
  constructor
  · intro cfg h
    simp [sagan_init, h]
  · intro cfg h
    simp [sagan_init, h]

/-- Witness for C8: at height 32 ≠ width 16 construction aborts with the
assertion error; at the default (square) configuration the assertion
passes and construction is exactly `build_sagan`. -/
theorem claim_C8_square_assertion_witness :
    sagan_init ⟨100, 32, 16, 3, 10, 100, 10, 64, 384, 512, 128, 1 / 10000⟩ =
      .error .assertionErr ∧
    sagan_init defaultCfg = build_sagan defaultCfg :=
  ⟨claim_C8_square_assertion.1 _ (by decide),
   claim_C8_square_assertion.2 defaultCfg rfl⟩

/-- C9: the self-attention stage of the generator (source line 142) is an
identity passthrough — for every input feature map the value after the
stage equals the value before it — and it introduces no parameters: no
trainable variable of the built model, and no variable used while building
the generator, carries an attention name. -/
theorem claim_C9_attention_stub :
    (∀ x : Expr, attentionStage x = x) ∧
    build_sagan defaultCfg = .ok buildRes ∧
    buildRes.t_vars.all (fun v => !pyContains (pstr "attention") v) = true ∧
    buildRes.used_gen.all (fun v => !pyContains (pstr "attention") v) = true :=
  ⟨fun _ => rfl, build_sagan_defaultCfg_ok, by decide, by decide⟩

/-- C10: both discriminator invocations compute the auxiliary class-logit
head `disc-fc-cat`, yet no classification loss is assembled: after
construction `c_loss` still equals its initial value 0, and neither the
discriminator loss nor the generator loss (equivalently, neither optimizer
objective) contains the class head — while both do contain the real/fake
head `disc-fc-disc`. -/
theorem claim_C10_class_head_unused :
    build_sagan defaultCfg = .ok buildRes ∧
    buildRes.c_loss = 0 ∧
    buildRes.c_real =
      Expr.dense buildRes.net_real defaultCfg.n_classes (pstr "disc-fc-cat") ∧
    buildRes.c_fake =
      Expr.dense buildRes.net_fake defaultCfg.n_classes (pstr "disc-fc-cat") ∧
    mentions (pstr "disc-fc-cat") buildRes.d_loss = false ∧
    mentions (pstr "disc-fc-cat") buildRes.g_loss = false ∧
    mentions (pstr "disc-fc-cat") buildRes.d_op.loss = false ∧
    mentions (pstr "disc-fc-cat") buildRes.g_op.loss = false ∧
    mentions (pstr "disc-fc-disc") buildRes.d_loss = true ∧
    mentions (pstr "disc-fc-disc") buildRes.g_loss = true :=
  ⟨build_sagan_defaultCfg_ok, rfl, rfl, rfl, by decide, by decide, by decide,
   by decide, by decide, by decide⟩

end SAGANModel
